import Mathlib

set_option maxHeartbeats 1000000
set_option maxRecDepth 20000

/-!
Shallow embedding of the s5k3l6 image-sensor driver
(`drivers/media/i2c/s5k3l6.c`) for checking its specification.

The embedding follows the C source function by function.  Machine
integers are modelled as `Nat`/`Int` with explicit `% 2^32` where
overflow matters.  The i2c bus is modelled as an oracle
`Bus : Nat → WriteOp → Bool` deciding, per transaction index and
operation, whether the transfer succeeds; a `BusState` records the
transaction count and the ordered list of attempted writes with their
outcome.  The small pieces of v4l2 control-framework behaviour the
driver relies on (`__v4l2_ctrl_modify_range` clamping the current value
and invoking the driver's `s_ctrl` when it changed,
`v4l2_ctrl_handler_setup` replaying the controls in registration order,
`pm_runtime_get_if_in_use` succeeding exactly when a power reference is
held) are modelled explicitly next to the driver code that calls them.
-/

/-- `struct regval`: one `(address, value)` entry of a register program. -/
structure Regval where
  addr : Nat
  val : Nat
deriving DecidableEq

/-- `#define REG_NULL 0xFFFF` — sentinel address terminating a register program. -/
def REG_NULL : Nat := 0xFFFF

/-- `#define CHIP_ID 0x30c6` -/
def CHIP_ID : Nat := 0x30c6

/-- `#define S5K3L6_REG_CTRL_MODE 0x0100` -/
def S5K3L6_REG_CTRL_MODE : Nat := 0x0100

/-- `#define S5K3L6_MODE_SW_STANDBY 0x0` -/
def S5K3L6_MODE_SW_STANDBY : Nat := 0x0

/-- `#define S5K3L6_MODE_STREAMING BIT(0)` -/
def S5K3L6_MODE_STREAMING : Nat := 1

/-- `#define S5K3L6_REG_STREAM_ON 0x3C1E` -/
def S5K3L6_REG_STREAM_ON : Nat := 0x3C1E

/-- `#define S5K3L6_REG_EXPOSURE 0x0202` -/
def S5K3L6_REG_EXPOSURE : Nat := 0x0202

/-- `#define S5K3L6_VTS_MAX 0xfff7` -/
def S5K3L6_VTS_MAX : Nat := 0xfff7

/-- `#define S5K3L6_REG_ANALOG_GAIN 0x0204` -/
def S5K3L6_REG_ANALOG_GAIN : Nat := 0x0204

/-- `#define S5K3L6_REG_TEST_PATTERN 0x0601` -/
def S5K3L6_REG_TEST_PATTERN : Nat := 0x0601

/-- `#define S5K3L6_TEST_PATTERN_ENABLE 0x80` -/
def S5K3L6_TEST_PATTERN_ENABLE : Nat := 0x80

/-- `#define S5K3L6_TEST_PATTERN_DISABLE 0x0` -/
def S5K3L6_TEST_PATTERN_DISABLE : Nat := 0x0

/-- `#define S5K3L6_REG_VTS 0x0340` -/
def S5K3L6_REG_VTS : Nat := 0x0340

/-- `#define S5K3L6_CHIP_REVISION_REG 0x0002` -/
def S5K3L6_CHIP_REVISION_REG : Nat := 0x0002

/-- `MEDIA_BUS_FMT_SGRBG10_1X10` — the bus code selected by the default
(no mirror, no flip) build configuration of `S5K3L6_MEDIA_BUS_FMT`. -/
def S5K3L6_MEDIA_BUS_FMT : Nat := 0x300a

/-- `V4L2_FIELD_NONE` -/
def V4L2_FIELD_NONE : Nat := 1

/-- `-EIO`: returned by `s5k3l6_write_reg`/`s5k3l6_read_reg` on a failed transfer. -/
def EIO_ERR : Int := -5

/-- `-EINVAL`: returned on an invalid register-access width. -/
def EINVAL_ERR : Int := -22

/-- `-ENODEV`: returned by `s5k3l6_check_sensor_id` on an identifier mismatch. -/
def ENODEV_ERR : Int := -19

/-- Truncation to a 32-bit unsigned value. -/
def u32 (n : Nat) : Nat := n % 4294967296

/-- C conversion of a (mathematical) integer to `u32`. -/
def intToU32 (v : Int) : Nat := (v % 4294967296).toNat

/-- `struct s5k3l6_mode` (the `max_fps` fraction is kept as numerator and
denominator). -/
structure Mode where
  width : Nat
  height : Nat
  fps_numerator : Nat
  fps_denominator : Nat
  hts_def : Nat
  vts_def : Nat
  exp_def : Nat
  link_freq_idx : Nat
  bpp : Nat
  reg_list : List Regval
deriving DecidableEq

/-- One attempted bus write: 16-bit register address, byte width, 32-bit value. -/
structure WriteOp where
  addr : Nat
  len : Nat
  val : Nat
deriving DecidableEq

/-- Bus oracle: given the index of the transaction and the attempted write,
decides whether the i2c transfer completes (`i2c_master_send` returning the
full length). -/
def Bus : Type := Nat → WriteOp → Bool

/-- A bus that never fails. -/
def busOk : Bus := fun _ _ => true

/-- Running bus state: number of transactions attempted so far, and the
ordered log of attempted writes, each paired with its outcome. -/
structure BusState where
  count : Nat
  log : List (WriteOp × Bool)
deriving DecidableEq

/-- `s5k3l6_write_reg`: packs the address big-endian followed by the low
`len` bytes of `val` and sends them as one transaction.  Returns `-EINVAL`
for `len > 4` without touching the bus, `-EIO` when the transfer fails,
`0` otherwise. -/
def s5k3l6_write_reg (bus : Bus) (st : BusState) (reg len val : Nat) :
    Int × BusState :=
  if len > 4 then (EINVAL_ERR, st)
  else
    let op : WriteOp := ⟨reg, len, u32 val⟩
    if bus st.count op then
      (0, ⟨st.count + 1, st.log ++ [(op, true)]⟩)
    else
      (EIO_ERR, ⟨st.count + 1, st.log ++ [(op, false)]⟩)

/-- `s5k3l6_write_array`: applies the entries of a register program in
order as 16-bit writes, stopping at the first entry whose address is
`REG_NULL`; a failing write aborts the loop and its error is returned. -/
def s5k3l6_write_array (bus : Bus) (st : BusState) :
    List Regval → Int × BusState
  | [] => (0, st)
  | r :: rs =>
    if r.addr = REG_NULL then (0, st)
    else
      let w := s5k3l6_write_reg bus st r.addr 2 r.val
      if w.1 = 0 then s5k3l6_write_array bus w.2 rs else w

/-- `s5k3l6_enable_test_pattern`: encodes the selector and writes the
test-pattern register (one byte). -/
def s5k3l6_enable_test_pattern (bus : Bus) (st : BusState) (pattern : Nat) :
    Int × BusState :=
  let val := if pattern ≠ 0 then (pattern - 1) ||| S5K3L6_TEST_PATTERN_ENABLE
             else S5K3L6_TEST_PATTERN_DISABLE
  s5k3l6_write_reg bus st S5K3L6_REG_TEST_PATTERN 1 val

/-- Register program for the 4208x3120 mode (default build branch of the
mirror/flip conditional), transcribed from the source table. -/
def s5k3l6_4208x3120_30fps_regs : List Regval := [
  Regval.mk 0x0100 0x0000,
  Regval.mk 0x0000 0x0060,
  Regval.mk 0x0000 0x30C6,
  Regval.mk 0x0A02 0x3400,
  Regval.mk 0x3084 0x1314,
  Regval.mk 0x3266 0x0001,
  Regval.mk 0x3242 0x2020,
  Regval.mk 0x306A 0x2F4C,
  Regval.mk 0x306C 0xCA01,
  Regval.mk 0x307A 0x0D20,
  Regval.mk 0x309E 0x002D,
  Regval.mk 0x3072 0x0013,
  Regval.mk 0x3074 0x0977,
  Regval.mk 0x3076 0x9411,
  Regval.mk 0x3024 0x0016,
  Regval.mk 0x3070 0x3D00,
  Regval.mk 0x3002 0x0E00,
  Regval.mk 0x3006 0x1000,
  Regval.mk 0x300A 0x0C00,
  Regval.mk 0x3010 0x0400,
  Regval.mk 0x3018 0xC500,
  Regval.mk 0x303A 0x0204,
  Regval.mk 0x3452 0x0001,
  Regval.mk 0x3454 0x0001,
  Regval.mk 0x3456 0x0001,
  Regval.mk 0x3458 0x0001,
  Regval.mk 0x345a 0x0002,
  Regval.mk 0x345C 0x0014,
  Regval.mk 0x345E 0x0002,
  Regval.mk 0x3460 0x0014,
  Regval.mk 0x3464 0x0006,
  Regval.mk 0x3466 0x0012,
  Regval.mk 0x3468 0x0012,
  Regval.mk 0x346A 0x0012,
  Regval.mk 0x346C 0x0012,
  Regval.mk 0x346E 0x0012,
  Regval.mk 0x3470 0x0012,
  Regval.mk 0x3472 0x0008,
  Regval.mk 0x3474 0x0004,
  Regval.mk 0x3476 0x0044,
  Regval.mk 0x3478 0x0004,
  Regval.mk 0x347A 0x0044,
  Regval.mk 0x347E 0x0006,
  Regval.mk 0x3480 0x0010,
  Regval.mk 0x3482 0x0010,
  Regval.mk 0x3484 0x0010,
  Regval.mk 0x3486 0x0010,
  Regval.mk 0x3488 0x0010,
  Regval.mk 0x348A 0x0010,
  Regval.mk 0x348E 0x000C,
  Regval.mk 0x3490 0x004C,
  Regval.mk 0x3492 0x000C,
  Regval.mk 0x3494 0x004C,
  Regval.mk 0x3496 0x0020,
  Regval.mk 0x3498 0x0006,
  Regval.mk 0x349A 0x0008,
  Regval.mk 0x349C 0x0008,
  Regval.mk 0x349E 0x0008,
  Regval.mk 0x34A0 0x0008,
  Regval.mk 0x34A2 0x0008,
  Regval.mk 0x34A4 0x0008,
  Regval.mk 0x34A8 0x001A,
  Regval.mk 0x34AA 0x002A,
  Regval.mk 0x34AC 0x001A,
  Regval.mk 0x34AE 0x002A,
  Regval.mk 0x34B0 0x0080,
  Regval.mk 0x34B2 0x0006,
  Regval.mk 0x32A2 0x0000,
  Regval.mk 0x32A4 0x0000,
  Regval.mk 0x32A6 0x0000,
  Regval.mk 0x32A8 0x0000,
  Regval.mk 0x0344 0x0008,
  Regval.mk 0x0346 0x0008,
  Regval.mk 0x0348 0x1077,
  Regval.mk 0x034A 0x0C37,
  Regval.mk 0x034C 0x1070,
  Regval.mk 0x034E 0x0C30,
  Regval.mk 0x0900 0x0000,
  Regval.mk 0x0380 0x0001,
  Regval.mk 0x0382 0x0001,
  Regval.mk 0x0384 0x0001,
  Regval.mk 0x0386 0x0001,
  Regval.mk 0x0114 0x0330,
  Regval.mk 0x0110 0x0002,
  Regval.mk 0x0136 0x1800,
  Regval.mk 0x0304 0x0004,
  Regval.mk 0x0306 0x0078,
  Regval.mk 0x3C1E 0x0000,
  Regval.mk 0x030C 0x0004,
  Regval.mk 0x030E 0x0064,
  Regval.mk 0x3C16 0x0000,
  Regval.mk 0x0300 0x0006,
  Regval.mk 0x0342 0x1320,
  Regval.mk 0x0340 0x0CBC,
  Regval.mk 0x38C4 0x0009,
  Regval.mk 0x38D8 0x002A,
  Regval.mk 0x38DA 0x000A,
  Regval.mk 0x38DC 0x000B,
  Regval.mk 0x38C2 0x000A,
  Regval.mk 0x38C0 0x000F,
  Regval.mk 0x38D6 0x000A,
  Regval.mk 0x38D4 0x0009,
  Regval.mk 0x38B0 0x000F,
  Regval.mk 0x3932 0x1000,
  Regval.mk 0x3934 0x0180,
  Regval.mk 0x3938 0x000C,
  Regval.mk 0x0820 0x04B0,
  Regval.mk 0x380C 0x0090,
  Regval.mk 0x3064 0xEFCF,
  Regval.mk 0x309C 0x0640,
  Regval.mk 0x3090 0x8800,
  Regval.mk 0x3238 0x000C,
  Regval.mk 0x314A 0x5F00,
  Regval.mk 0x32B2 0x0000,
  Regval.mk 0x32B4 0x0000,
  Regval.mk 0x32B6 0x0000,
  Regval.mk 0x32B8 0x0000,
  Regval.mk 0x3300 0x0000,
  Regval.mk 0x3400 0x0000,
  Regval.mk 0x3402 0x4E42,
  Regval.mk 0x32B2 0x0006,
  Regval.mk 0x32B4 0x0006,
  Regval.mk 0x32B6 0x0006,
  Regval.mk 0x32B8 0x0006,
  Regval.mk 0x3C34 0x0008,
  Regval.mk 0x3C36 0x0000,
  Regval.mk 0x3C38 0x0000,
  Regval.mk 0x393E 0x4000,
  Regval.mk 0xFFFF 0x0000
]

/-- Register program for the 2104x1560 mode (default build branch of the
mirror/flip conditional), transcribed from the source table. -/
def s5k3l6_2104x1560_30fps_regs : List Regval := [
  Regval.mk 0x0100 0x0000,
  Regval.mk 0x0000 0x0050,
  Regval.mk 0x0000 0x30C6,
  Regval.mk 0x0A02 0x3400,
  Regval.mk 0x3084 0x1314,
  Regval.mk 0x3266 0x0001,
  Regval.mk 0x3242 0x2020,
  Regval.mk 0x306A 0x2F4C,
  Regval.mk 0x306C 0xCA01,
  Regval.mk 0x307A 0x0D20,
  Regval.mk 0x309E 0x002D,
  Regval.mk 0x3072 0x0013,
  Regval.mk 0x3074 0x0977,
  Regval.mk 0x3076 0x9411,
  Regval.mk 0x3024 0x0016,
  Regval.mk 0x3070 0x3D00,
  Regval.mk 0x3002 0x0E00,
  Regval.mk 0x3006 0x1000,
  Regval.mk 0x300A 0x0C00,
  Regval.mk 0x3010 0x0400,
  Regval.mk 0x3018 0xC500,
  Regval.mk 0x303A 0x0204,
  Regval.mk 0x3452 0x0001,
  Regval.mk 0x3454 0x0001,
  Regval.mk 0x3456 0x0001,
  Regval.mk 0x3458 0x0001,
  Regval.mk 0x345a 0x0002,
  Regval.mk 0x345C 0x0014,
  Regval.mk 0x345E 0x0002,
  Regval.mk 0x3460 0x0014,
  Regval.mk 0x3464 0x0006,
  Regval.mk 0x3466 0x0012,
  Regval.mk 0x3468 0x0012,
  Regval.mk 0x346A 0x0012,
  Regval.mk 0x346C 0x0012,
  Regval.mk 0x346E 0x0012,
  Regval.mk 0x3470 0x0012,
  Regval.mk 0x3472 0x0008,
  Regval.mk 0x3474 0x0004,
  Regval.mk 0x3476 0x0044,
  Regval.mk 0x3478 0x0004,
  Regval.mk 0x347A 0x0044,
  Regval.mk 0x347E 0x0006,
  Regval.mk 0x3480 0x0010,
  Regval.mk 0x3482 0x0010,
  Regval.mk 0x3484 0x0010,
  Regval.mk 0x3486 0x0010,
  Regval.mk 0x3488 0x0010,
  Regval.mk 0x348A 0x0010,
  Regval.mk 0x348E 0x000C,
  Regval.mk 0x3490 0x004C,
  Regval.mk 0x3492 0x000C,
  Regval.mk 0x3494 0x004C,
  Regval.mk 0x3496 0x0020,
  Regval.mk 0x3498 0x0006,
  Regval.mk 0x349A 0x0008,
  Regval.mk 0x349C 0x0008,
  Regval.mk 0x349E 0x0008,
  Regval.mk 0x34A0 0x0008,
  Regval.mk 0x34A2 0x0008,
  Regval.mk 0x34A4 0x0008,
  Regval.mk 0x34A8 0x001A,
  Regval.mk 0x34AA 0x002A,
  Regval.mk 0x34AC 0x001A,
  Regval.mk 0x34AE 0x002A,
  Regval.mk 0x34B0 0x0080,
  Regval.mk 0x34B2 0x0006,
  Regval.mk 0x32A2 0x0000,
  Regval.mk 0x32A4 0x0000,
  Regval.mk 0x32A6 0x0000,
  Regval.mk 0x32A8 0x0000,
  Regval.mk 0x3066 0x7E00,
  Regval.mk 0x3004 0x0800,
  Regval.mk 0x0344 0x0008,
  Regval.mk 0x0346 0x0008,
  Regval.mk 0x0348 0x1077,
  Regval.mk 0x034A 0x0C37,
  Regval.mk 0x034C 0x0838,
  Regval.mk 0x034E 0x0618,
  Regval.mk 0x0900 0x0122,
  Regval.mk 0x0380 0x0001,
  Regval.mk 0x0382 0x0001,
  Regval.mk 0x0384 0x0001,
  Regval.mk 0x0386 0x0003,
  Regval.mk 0x0114 0x0330,
  Regval.mk 0x0110 0x0002,
  Regval.mk 0x0136 0x1800,
  Regval.mk 0x0304 0x0004,
  Regval.mk 0x0306 0x0078,
  Regval.mk 0x3C1E 0x0000,
  Regval.mk 0x030C 0x0003,
  Regval.mk 0x030E 0x0047,
  Regval.mk 0x3C16 0x0001,
  Regval.mk 0x0300 0x0006,
  Regval.mk 0x0342 0x1320,
  Regval.mk 0x0340 0x0CBC,
  Regval.mk 0x38C4 0x0004,
  Regval.mk 0x38D8 0x0011,
  Regval.mk 0x38DA 0x0005,
  Regval.mk 0x38DC 0x0005,
  Regval.mk 0x38C2 0x0005,
  Regval.mk 0x38C0 0x0004,
  Regval.mk 0x38D6 0x0004,
  Regval.mk 0x38D4 0x0004,
  Regval.mk 0x38B0 0x0007,
  Regval.mk 0x3932 0x1000,
  Regval.mk 0x3934 0x0180,
  Regval.mk 0x3938 0x000C,
  Regval.mk 0x0820 0x0238,
  Regval.mk 0x380C 0x0049,
  Regval.mk 0x3064 0xFFCF,
  Regval.mk 0x309C 0x0640,
  Regval.mk 0x3090 0x8000,
  Regval.mk 0x3238 0x000B,
  Regval.mk 0x314A 0x5F02,
  Regval.mk 0x3300 0x0000,
  Regval.mk 0x3400 0x0000,
  Regval.mk 0x3402 0x4E46,
  Regval.mk 0x32B2 0x0008,
  Regval.mk 0x32B4 0x0008,
  Regval.mk 0x32B6 0x0008,
  Regval.mk 0x32B8 0x0008,
  Regval.mk 0x3C34 0x0048,
  Regval.mk 0x3C36 0x3000,
  Regval.mk 0x3C38 0x0020,
  Regval.mk 0x393E 0x4000,
  Regval.mk 0x303A 0x0204,
  Regval.mk 0x3034 0x4B01,
  Regval.mk 0x3036 0x0029,
  Regval.mk 0x3032 0x4800,
  Regval.mk 0x320E 0x049E,
  Regval.mk 0xFFFF 0x0000
]

/-- `supported_modes`: the fixed mode catalog (two entries). -/
def supported_modes : List Mode := [
  { width := 4208, height := 3120,
    fps_numerator := 10000, fps_denominator := 300000,
    exp_def := 0x0cb0, hts_def := 0x1320, vts_def := 0x0cbc,
    bpp := 10, reg_list := s5k3l6_4208x3120_30fps_regs, link_freq_idx := 0 },
  { width := 2104, height := 1560,
    fps_numerator := 10000, fps_denominator := 300000,
    exp_def := 0x0cb0, hts_def := 0x1320, vts_def := 0x0cbc,
    bpp := 10, reg_list := s5k3l6_2104x1560_30fps_regs, link_freq_idx := 1 }
]

/-- `link_freq_items`: the fixed ordered list of supported link frequencies. -/
def link_freq_items : List Int := [600000000, 284000000]

/-- Catalog access, `supported_modes[i]` (total, with the first mode as
out-of-range default; all uses are in range). -/
def modeAt (i : Nat) : Mode :=
  supported_modes.getD i
    { width := 4208, height := 3120,
      fps_numerator := 10000, fps_denominator := 300000,
      exp_def := 0x0cb0, hts_def := 0x1320, vts_def := 0x0cbc,
      bpp := 10, reg_list := s5k3l6_4208x3120_30fps_regs, link_freq_idx := 0 }

/-- Reinterpretation of a `u32` value as a signed 32-bit integer
(conversion applied when the unsigned difference is passed to `abs`). -/
def intOfU32 (n : Nat) : Int :=
  if u32 n < 2147483648 then (u32 n : Int) else (u32 n : Int) - 4294967296

/-- `u32` subtraction `a - b` (modular). -/
def u32sub (a b : Nat) : Nat := (u32 a + 4294967296 - u32 b) % 4294967296

/-- C `abs` applied to a `u32` difference reinterpreted as `int`, kept as a
mathematical integer (the `abs(INT_MIN)` corner, undefined in C, is taken
to be `2^31`). -/
def absC (n : Nat) : Int := ((intOfU32 n).natAbs : Int)

/-- `s5k3l6_get_reso_dist`: `abs(mode->width - framefmt->width) +
abs(mode->height - framefmt->height)` with the operands' C types (`u32`
subtraction, `abs` on the reinterpreted difference). -/
def s5k3l6_get_reso_dist (m : Mode) (fw fh : Nat) : Int :=
  absC (u32sub m.width fw) + absC (u32sub m.height fh)

/-- Loop body of `s5k3l6_find_best_fit`: `cur_best_fit_dist` starts at `-1`
and a strictly smaller distance moves the best index forward. -/
def findBestFitAux (fw fh : Nat) :
    List Mode → Nat → Nat → Int → Nat
  | [], _, best, _ => best
  | m :: ms, i, best, bd =>
    let d := s5k3l6_get_reso_dist m fw fh
    if bd = -1 ∨ d < bd then findBestFitAux fw fh ms (i + 1) i d
    else findBestFitAux fw fh ms (i + 1) best bd

/-- `s5k3l6_find_best_fit`, returning the index into `supported_modes`. -/
def s5k3l6_find_best_fit_idx (fw fh : Nat) : Nat :=
  findBestFitAux fw fh supported_modes 0 0 (-1)

/-- `s5k3l6_find_best_fit` (the selected catalog entry itself). -/
def s5k3l6_find_best_fit (fw fh : Nat) : Mode :=
  modeAt (s5k3l6_find_best_fit_idx fw fh)

/-- The Manhattan distance of the specification text:
`|w - requested_width| + |h - requested_height|` over the integers. -/
def manhattanDistSpec (m : Mode) (fw fh : Nat) : Nat :=
  ((m.width : Int) - fw).natAbs + ((m.height : Int) - fh).natAbs

/-- A v4l2 integer control: range bounds, step, default, current value. -/
structure Ctrl where
  minimum : Int
  maximum : Int
  step : Int
  default_value : Int
  val : Int
deriving DecidableEq

/-- v4l2 `clamp_t`: `min(max(v, lo), hi)`. -/
def clampC (lo hi v : Int) : Int := min hi (max lo v)

/-- Core of `__v4l2_ctrl_modify_range` for an integer control with step 1:
install the new range and clamp the current value into it; the flag
reports whether the value changed (in which case the framework invokes
the driver's `s_ctrl`). -/
def modifyRangeCore (c : Ctrl) (mn mx stp df : Int) : Ctrl × Bool :=
  let v := clampC mn mx c.val
  (⟨mn, mx, stp, df, v⟩, v != c.val)

/-- `__v4l2_ctrl_s_ctrl` / `__v4l2_ctrl_s_ctrl_int64` on a control whose
ops are NULL (pixel rate, link frequency): the value is clamped into the
control's range and committed; there is no driver callback. -/
def v4l2SetValNoOps (c : Ctrl) (v : Int) : Ctrl :=
  { c with val := clampC c.minimum c.maximum v }

/-- Hardware actions of `s5k3l6_set_power` (GPIO levels and the INT3472
clock `_DSM` call). -/
inductive HwAction where
  | resetSet (v : Nat)
  | clockDsm (v : Nat)
  | pwrenSet (v : Nat)
  | pledSet (v : Nat)
deriving DecidableEq

/-- `struct s5k3l6_power_ctrl`: the `status` field plus presence flags for
the optional INT3472 device and GPIOs. -/
structure PowerCtrl where
  status : Nat
  has_ctrl_logic : Bool
  has_reset : Bool
  has_pwren : Bool
  has_pled : Bool
deriving DecidableEq

/-- `s5k3l6_set_power`: normalizes `on` to 0/1, returns immediately when
the target state is already current, otherwise performs the hardware
sequence (reset low, clock `_DSM`, power-enable and privacy-LED pins,
reset high when powering on) and records the new status. -/
def s5k3l6_set_power (p : PowerCtrl) (onArg : Nat) : PowerCtrl × List HwAction :=
  let onv := if onArg ≠ 0 then 1 else 0
  if onv = p.status then (p, [])
  else
    let acts :=
      (if p.has_reset then [HwAction.resetSet 0] else []) ++
      (if p.has_ctrl_logic then [HwAction.clockDsm onv] else []) ++
      (if p.has_pwren then [HwAction.pwrenSet onv] else []) ++
      (if p.has_pled then [HwAction.pledSet onv] else []) ++
      (if onv = 1 ∧ p.has_reset then [HwAction.resetSet 1] else [])
    ({ p with status := onv }, acts)

/-- Per-device driver state: current mode, the controls, the streaming and
power flags, the runtime-PM usage count `pm`, and the power-control
block. -/
structure Device where
  cur_mode : Mode
  link_freq : Ctrl
  pixel_rate : Ctrl
  hblank : Ctrl
  vblank : Ctrl
  exposure : Ctrl
  anal_gain : Ctrl
  test_pattern : Ctrl
  streaming : Bool
  power_on : Bool
  pm : Nat
  power : PowerCtrl
deriving DecidableEq

/-- The control ids `s5k3l6_set_ctrl` handles. -/
inductive CtrlId where
  | EXPOSURE
  | ANALOGUE_GAIN
  | VBLANK
  | TEST_PATTERN
deriving DecidableEq

/-- `__v4l2_ctrl_modify_range` applied to the exposure control inside the
driver's `V4L2_CID_VBLANK` handler: the bounds are installed, the current
value is clamped into them, and when the value changed the framework
re-enters the driver's `s_ctrl` for `V4L2_CID_EXPOSURE` (which writes the
exposure register when a power reference is held); the clamped value is
committed when that call succeeds. -/
def v4l2ModifyRangeExposure (bus : Bus) (s : Device) (st : BusState)
    (mn mx stp df : Int) : Device × BusState :=
  let r := modifyRangeCore s.exposure mn mx stp df
  if r.2 then
    let s1 := { s with exposure := { r.1 with val := s.exposure.val } }
    if s1.pm = 0 then ({ s1 with exposure := r.1 }, st)
    else
      let w := s5k3l6_write_reg bus st S5K3L6_REG_EXPOSURE 2 (intToU32 r.1.val)
      if w.1 = 0 then ({ s1 with exposure := r.1 }, w.2)
      else (s1, w.2)
  else ({ s with exposure := r.1 }, st)

/-- `s5k3l6_set_ctrl`: the driver's `s_ctrl` callback; `v` is the new
value of the control being set (`ctrl->val`).  The first `switch`
propagates a vertical-blank change to the exposure range; the register
write below happens only when `pm_runtime_get_if_in_use` succeeds, i.e.
when a power reference is held (modelled as `s.pm ≠ 0`). -/
def s5k3l6_set_ctrl (bus : Bus) (s : Device) (st : BusState)
    (id : CtrlId) (v : Int) : Int × Device × BusState :=
  match id with
  | .VBLANK =>
    let mx : Int := (s.cur_mode.height : Int) + v - 4
    let r := v4l2ModifyRangeExposure bus s st s.exposure.minimum mx
               s.exposure.step s.exposure.default_value
    if r.1.pm = 0 then (0, r.1, r.2)
    else
      let w := s5k3l6_write_reg bus r.2 S5K3L6_REG_VTS 2
                 (intToU32 (v + (r.1.cur_mode.height : Int)))
      (w.1, r.1, w.2)
  | .EXPOSURE =>
    if s.pm = 0 then (0, s, st)
    else
      let w := s5k3l6_write_reg bus st S5K3L6_REG_EXPOSURE 2 (intToU32 v)
      (w.1, s, w.2)
  | .ANALOGUE_GAIN =>
    if s.pm = 0 then (0, s, st)
    else
      let w := s5k3l6_write_reg bus st S5K3L6_REG_ANALOG_GAIN 2 (intToU32 v)
      (w.1, s, w.2)
  | .TEST_PATTERN =>
    if s.pm = 0 then (0, s, st)
    else
      let w := s5k3l6_enable_test_pattern bus st (intToU32 v)
      (w.1, s, w.2)

/-- The v4l2 framework path of a user `set(vertical_blank, v)` request:
the requested value is clamped into the control's range, an unchanged
value is a no-op, otherwise the driver's `s_ctrl` runs with the new value,
which is committed on success. -/
def v4l2SetCtrlVblank (bus : Bus) (s : Device) (st : BusState) (v : Int) :
    Int × Device × BusState :=
  let v1 := clampC s.vblank.minimum s.vblank.maximum v
  if v1 = s.vblank.val then (0, s, st)
  else
    let r := s5k3l6_set_ctrl bus s st .VBLANK v1
    if r.1 = 0 then
      (0, { r.2.1 with vblank := { r.2.1.vblank with val := v1 } }, r.2.2)
    else r

/-- `__v4l2_ctrl_modify_range` applied to the vertical-blank control in
`s5k3l6_set_fmt`: bounds installed, current value clamped, and a changed
value re-enters the driver's `s_ctrl` for `V4L2_CID_VBLANK`, committing
the clamped value on success. -/
def v4l2ModifyRangeVblank (bus : Bus) (s : Device) (st : BusState)
    (mn mx stp df : Int) : Device × BusState :=
  let r := modifyRangeCore s.vblank mn mx stp df
  if r.2 then
    let s1 := { s with vblank := { r.1 with val := s.vblank.val } }
    let c := s5k3l6_set_ctrl bus s1 st .VBLANK r.1.val
    if c.1 = 0 then
      ({ c.2.1 with vblank := { c.2.1.vblank with val := r.1.val } }, c.2.2)
    else (c.2.1, c.2.2)
  else ({ s with vblank := r.1 }, st)

/-- `fmt->which`: probe-only (`TRY`) or device-changing (`ACTIVE`). -/
inductive FmtWhich where
  | TRY
  | ACTIVE
deriving DecidableEq

/-- `struct v4l2_mbus_framefmt` (the fields `s5k3l6_set_fmt` touches). -/
structure MbusFmt where
  width : Nat
  height : Nat
  code : Nat
  field : Nat
deriving DecidableEq

/-- Result of `s5k3l6_set_fmt`: return code, device state, bus state, the
per-file-handle try format, and the caller's (rewritten) format struct. -/
structure SetFmtResult where
  ret : Int
  dev : Device
  bst : BusState
  try_fmt : MbusFmt
  fmt : MbusFmt
deriving DecidableEq

/-- `s5k3l6_set_fmt` (with `CONFIG_VIDEO_V4L2_SUBDEV_API` set): remaps the
requested size to the best-fit mode and rewrites the caller's format; a
`TRY` request only stores the remapped format into the file handle's try
format, an `ACTIVE` request installs the mode and updates the dependent
controls (hblank, vblank range — whose clamping may re-enter the driver's
`s_ctrl` — pixel rate and link frequency). -/
def s5k3l6_set_fmt (bus : Bus) (s : Device) (st : BusState) (try0 : MbusFmt)
    (which : FmtWhich) (f : MbusFmt) : SetFmtResult :=
  let m := s5k3l6_find_best_fit f.width f.height
  let f1 : MbusFmt :=
    { width := m.width, height := m.height,
      code := S5K3L6_MEDIA_BUS_FMT, field := V4L2_FIELD_NONE }
  match which with
  | .TRY => ⟨0, s, st, f1, f1⟩
  | .ACTIVE =>
    let s1 := { s with cur_mode := m }
    let hb : Int := (m.hts_def : Int) - (m.width : Int)
    let s2 := { s1 with hblank := (modifyRangeCore s1.hblank hb hb 1 hb).1 }
    let vdef : Int := (m.vts_def : Int) - (m.height : Int)
    let r := v4l2ModifyRangeVblank bus s2 st vdef
               ((S5K3L6_VTS_MAX : Int) - (m.height : Int)) 1 vdef
    let pr : Nat := u32 (link_freq_items.getD m.link_freq_idx 0).toNat / m.bpp * 2 * 4
    let s4 := { r.1 with pixel_rate := v4l2SetValNoOps r.1.pixel_rate (pr : Int) }
    let s5 := { s4 with link_freq := v4l2SetValNoOps s4.link_freq (m.link_freq_idx : Int) }
    ⟨0, s5, r.2, try0, f1⟩

/-- `v4l2_ctrl_handler_setup`: replays the controls that have driver ops,
in registration order (vertical blank, exposure, analog gain, test
pattern; link frequency, pixel rate and hblank have no ops or are
read-only), passing each control's current value to `s_ctrl` and stopping
at the first error. -/
def v4l2_ctrl_handler_setup (bus : Bus) (s : Device) (st : BusState) :
    Int × Device × BusState :=
  let r1 := s5k3l6_set_ctrl bus s st .VBLANK s.vblank.val
  if r1.1 ≠ 0 then r1 else
  let r2 := s5k3l6_set_ctrl bus r1.2.1 r1.2.2 .EXPOSURE r1.2.1.exposure.val
  if r2.1 ≠ 0 then r2 else
  let r3 := s5k3l6_set_ctrl bus r2.2.1 r2.2.2 .ANALOGUE_GAIN r2.2.1.anal_gain.val
  if r3.1 ≠ 0 then r3 else
  s5k3l6_set_ctrl bus r3.2.1 r3.2.2 .TEST_PATTERN r3.2.1.test_pattern.val

/-- `__s5k3l6_start_stream`: power pins on, apply the active mode's
register program (abort on failure), replay the controls (abort on
failure), then the enable sequence — streaming-enable register to the
streaming value, mode-control register to the streaming value,
streaming-enable register back to standby — whose return codes the
source discards; returns 0 after the sequence.  The hardware-action list
of `s5k3l6_set_power` is not recorded here (it is the subject of the
power-idempotence claim only). -/
def __s5k3l6_start_stream (bus : Bus) (s : Device) (st : BusState) :
    Int × Device × BusState :=
  let s0 := { s with power := (s5k3l6_set_power s.power 1).1 }
  let w := s5k3l6_write_array bus st s0.cur_mode.reg_list
  if w.1 ≠ 0 then (w.1, s0, w.2)
  else
    let r := v4l2_ctrl_handler_setup bus s0 w.2
    if r.1 ≠ 0 then r
    else
      let a := s5k3l6_write_reg bus r.2.2 S5K3L6_REG_STREAM_ON 1 S5K3L6_MODE_STREAMING
      let b := s5k3l6_write_reg bus a.2 S5K3L6_REG_CTRL_MODE 1 S5K3L6_MODE_STREAMING
      let c := s5k3l6_write_reg bus b.2 S5K3L6_REG_STREAM_ON 1 S5K3L6_MODE_SW_STANDBY
      (0, r.2.1, c.2)

/-- `__s5k3l6_stop_stream`: mode-control register to standby (failure only
logged), then power pins off. -/
def __s5k3l6_stop_stream (bus : Bus) (s : Device) (st : BusState) :
    Device × BusState :=
  let w := s5k3l6_write_reg bus st S5K3L6_REG_CTRL_MODE 1 S5K3L6_MODE_SW_STANDBY
  ({ s with power := (s5k3l6_set_power s.power 0).1 }, w.2)

/-- `s5k3l6_s_stream`.  `pm_runtime_get_sync` is modelled as acquiring a
power reference (incrementing `pm`) and succeeding; the runtime-resume
hook it may trigger does nothing on this path because `streaming` is
false there. -/
def s5k3l6_s_stream (bus : Bus) (s : Device) (st : BusState) (onArg : Nat) :
    Int × Device × BusState :=
  let onb : Bool := onArg != 0
  if onb = s.streaming then (0, s, st)
  else if onb then
    let s1 := { s with pm := s.pm + 1 }
    let r := __s5k3l6_start_stream bus s1 st
    if r.1 ≠ 0 then (r.1, { r.2.1 with pm := r.2.1.pm - 1 }, r.2.2)
    else (0, { r.2.1 with streaming := true }, r.2.2)
  else
    let r := __s5k3l6_stop_stream bus s st
    (0, { r.1 with streaming := false, pm := r.1.pm - 1 }, r.2)

/-- `s5k3l6_s_power`: a request for the already-current power state is a
no-op returning 0; otherwise a power reference is acquired or released
and the flag updated (`pm_runtime_get_sync` modelled as succeeding). -/
def s5k3l6_s_power (s : Device) (onArg : Nat) : Int × Device :=
  let onb : Bool := onArg != 0
  if s.power_on = onb then (0, s)
  else if onb then (0, { s with pm := s.pm + 1, power_on := true })
  else (0, { s with pm := s.pm - 1, power_on := false })

/-- `s5k3l6_check_sensor_id`, parametrized by the outcomes of the two
register reads (`Except.error e` models `s5k3l6_read_reg` failing with
`e` and leaving its output variable untouched, so the local `id`,
initialized to 0, keeps that value). -/
def s5k3l6_check_sensor_id (r1 r2 : Except Int Nat) : Int :=
  let id1 : Nat := match r1 with
    | .ok v => v
    | .error _ => 0
  if id1 ≠ CHIP_ID then ENODEV_ERR
  else
    match r2 with
    | .error e => e
    | .ok _ => 0

/-- The device state after `s5k3l6_probe` and
`s5k3l6_initialize_controls` run with the default mode
`supported_modes[0]`: control ranges and defaults as registered there;
probe's early `s5k3l6_set_power(s5k3l6, 1)` leaves `power.status = 1`
(the INT3472 resources are taken as absent, which only affects the
hardware-action lists, never control state). -/
def initDevice : Device :=
  { cur_mode := modeAt 0
    link_freq := ⟨0, 1, 1, 0, 0⟩
    pixel_rate := ⟨0, 480000000, 1, 480000000, 480000000⟩
    hblank := ⟨688, 688, 1, 688, 688⟩
    vblank := ⟨140, 62407, 1, 140, 140⟩
    exposure := ⟨1, 3256, 1, 3248, 3248⟩
    anal_gain := ⟨32, 512, 1, 256, 256⟩
    test_pattern := ⟨0, 3, 1, 0, 0⟩
    streaming := false
    power_on := false
    pm := 0
    power := ⟨1, false, false, false, false⟩ }

/-- One externally-triggered operation of the control-invariant claim: an
active-mode format selection or a user vertical-blank set. -/
inductive CtrlOp where
  | setFmt (fw fh : Nat)
  | setVblank (v : Int)
deriving DecidableEq

/-- Device-state effect of one operation (bus writes succeeding; the
control-state updates on that path do not depend on write payloads). -/
def stepOp (s : Device) : CtrlOp → Device
  | .setFmt fw fh =>
    (s5k3l6_set_fmt busOk s ⟨0, []⟩ ⟨0, 0, 0, 0⟩ .ACTIVE ⟨fw, fh, 0, 0⟩).dev
  | .setVblank v => (v4l2SetCtrlVblank busOk s ⟨0, []⟩ v).2.1

/-- Run a sequence of operations. -/
def runOps (s : Device) : List CtrlOp → Device
  | [] => s
  | op :: ops => runOps (stepOp s op) ops

/-- A vertical-blank set is valid when the requested value is within the
control's advertised range (the claim quantifies over in-range calls). -/
def validOp (s : Device) : CtrlOp → Bool
  | .setFmt _ _ => true
  | .setVblank v =>
    decide (s.vblank.minimum ≤ v) && decide (v ≤ s.vblank.maximum)

/-- Validity of a whole operation sequence, checked state by state. -/
def validSeq (s : Device) : List CtrlOp → Bool
  | [] => true
  | op :: ops => validOp s op && validSeq (stepOp s op) ops

/-- The vertical-blank part of the control-state invariant: the current
mode is a catalog entry and the vertical-blank control's range and value
match it. -/
def VblankInv (s : Device) : Prop :=
  s.cur_mode ∈ supported_modes ∧
  s.vblank.minimum = (s.cur_mode.vts_def : Int) - (s.cur_mode.height : Int) ∧
  s.vblank.maximum = (S5K3L6_VTS_MAX : Int) - (s.cur_mode.height : Int) ∧
  s.vblank.minimum ≤ s.vblank.val ∧ s.vblank.val ≤ s.vblank.maximum

/-- Helper: the bus state after one `s5k3l6_write_reg` with a valid width —
the transaction counter advances and the attempt is logged with the bus
outcome, whether or not the write succeeded. -/
theorem write_reg_bst (bus : Bus) (st : BusState) (reg len v : Nat)
    (h : len ≤ 4) :
    (s5k3l6_write_reg bus st reg len v).2 =
      ⟨st.count + 1,
       st.log ++ [(⟨reg, len, u32 v⟩, bus st.count ⟨reg, len, u32 v⟩)]⟩ := by
  unfold s5k3l6_write_reg
  rw [if_neg (by omega)]
  cases hb : bus st.count ⟨reg, len, u32 v⟩ <;> simp [hb]

/-- Helper: the return value of one `s5k3l6_write_reg` with a valid width
is 0 on success and `-EIO` on a failed transfer. -/
theorem write_reg_ret (bus : Bus) (st : BusState) (reg len v : Nat)
    (h : len ≤ 4) :
    (s5k3l6_write_reg bus st reg len v).1 =
      (if bus st.count ⟨reg, len, u32 v⟩ then 0 else EIO_ERR) := by
  unfold s5k3l6_write_reg
  rw [if_neg (by omega)]
  cases hb : bus st.count ⟨reg, len, u32 v⟩ <;> simp [hb]

/-- C9: setting the test-pattern control to 0 writes the fixed disable
constant to the test-pattern register, and setting it to any `k > 0`
writes `(k - 1) | S5K3L6_TEST_PATTERN_ENABLE` (enable bit 0x80) to that
register, as a single one-byte write. -/
theorem test_pattern_encoding (bus : Bus) (st : BusState) (k : Nat) :
    (s5k3l6_enable_test_pattern bus st k).2.log = st.log ++
      [(⟨S5K3L6_REG_TEST_PATTERN, 1,
          u32 (if k = 0 then S5K3L6_TEST_PATTERN_DISABLE
               else (k - 1) ||| S5K3L6_TEST_PATTERN_ENABLE)⟩,
        bus st.count
          ⟨S5K3L6_REG_TEST_PATTERN, 1,
           u32 (if k = 0 then S5K3L6_TEST_PATTERN_DISABLE
                else (k - 1) ||| S5K3L6_TEST_PATTERN_ENABLE)⟩)] := by
  by_cases hk : k = 0 <;>
    simp [s5k3l6_enable_test_pattern, hk,
      write_reg_bst bus st S5K3L6_REG_TEST_PATTERN 1 _ (by omega)]

/-- C10: a TRY (probe-only) set-format request leaves the device state and
the bus untouched — the current mode, all control ranges and values, the
pixel-rate and link-frequency controls keep their previous values — and
only the caller's format struct (remapped to the best-fit mode's size,
the fixed bus code and `V4L2_FIELD_NONE`) and the file handle's try
format are produced, both equal. -/
theorem set_fmt_try_pure (bus : Bus) (s : Device) (st : BusState)
    (try0 : MbusFmt) (f : MbusFmt) :
    s5k3l6_set_fmt bus s st try0 .TRY f =
      { ret := 0, dev := s, bst := st,
        try_fmt := { width := (s5k3l6_find_best_fit f.width f.height).width,
                     height := (s5k3l6_find_best_fit f.width f.height).height,
                     code := S5K3L6_MEDIA_BUS_FMT, field := V4L2_FIELD_NONE },
        fmt := { width := (s5k3l6_find_best_fit f.width f.height).width,
                 height := (s5k3l6_find_best_fit f.width f.height).height,
                 code := S5K3L6_MEDIA_BUS_FMT, field := V4L2_FIELD_NONE } } := by
  rfl

/-- C7: a power request for the already-current state is a no-op: a second
`s5k3l6_set_power(.., 1)` right after a first performs no hardware action
and leaves the state unchanged, a redundant power-off likewise, and
`s5k3l6_s_power` returns 0 without touching the device when the requested
state equals `power_on`. -/
theorem power_request_idempotent :
    (∀ p : PowerCtrl,
      s5k3l6_set_power (s5k3l6_set_power p 1).1 1 = ((s5k3l6_set_power p 1).1, [])) ∧
    (∀ p : PowerCtrl,
      s5k3l6_set_power (s5k3l6_set_power p 0).1 0 = ((s5k3l6_set_power p 0).1, [])) ∧
    (∀ (s : Device) (onArg : Nat), s.power_on = (onArg != 0) →
      s5k3l6_s_power s onArg = (0, s)) := by
  have hst : ∀ (p : PowerCtrl) (a : Nat),
      (s5k3l6_set_power p a).1.status = if a ≠ 0 then 1 else 0 := by
    intro p a
    unfold s5k3l6_set_power
    by_cases h : (if a ≠ 0 then 1 else 0) = p.status
    · rw [if_pos h]
      exact h.symm
    · rw [if_neg h]
  have hnoop : ∀ (p : PowerCtrl) (a : Nat),
      p.status = (if a ≠ 0 then 1 else 0) → s5k3l6_set_power p a = (p, []) := by
    intro p a h
    unfold s5k3l6_set_power
    rw [if_pos h.symm]
  refine ⟨fun p => ?_, fun p => ?_, fun s onArg h => ?_⟩
  · exact hnoop _ 1 (hst p 1)
  · exact hnoop _ 0 (hst p 0)
  · simp [s5k3l6_s_power, h]

/-- Witness for C7 at concrete inputs: powering on twice from status 0
with all resources present adds no second hardware action, and a
redundant power-off request through `s5k3l6_s_power` on the initial
(unpowered) device state is a pure no-op. -/
theorem power_request_idempotent_witness :
    s5k3l6_set_power (s5k3l6_set_power ⟨0, true, true, true, true⟩ 1).1 1 =
      ((s5k3l6_set_power ⟨0, true, true, true, true⟩ 1).1, []) ∧
    s5k3l6_s_power initDevice 0 = (0, initDevice) :=
  ⟨power_request_idempotent.1 ⟨0, true, true, true, true⟩,
   power_request_idempotent.2.2 initDevice 0 (by decide)⟩

/-- C8 counterexample: a bus error on the 2-byte identifier read is NOT
reported distinctly — the local `id` keeps its initial value 0, the
mismatch branch fires, and the function returns the same `-ENODEV` as a
genuine identifier mismatch (not the bus error `-EIO`). -/
theorem chip_id_bus_error_collapses :
    s5k3l6_check_sensor_id (Except.error EIO_ERR) (Except.ok 0xb0) = ENODEV_ERR ∧
    s5k3l6_check_sensor_id (Except.ok 0) (Except.ok 0xb0) = ENODEV_ERR ∧
    ENODEV_ERR ≠ EIO_ERR := by
  decide

/-- C8 amended: the identity check fails with `-ENODEV` whenever the
identifier value (which stays 0 when the read errors) differs from
`CHIP_ID` — so a bus error on the identifier read collapses into the
mismatch failure rather than being reported distinctly — and a bus error
on the 1-byte revision read is returned to the caller; on full success 0
is returned. -/
theorem chip_id_check_amended :
    (∀ (v : Nat) (r2 : Except Int Nat), v ≠ CHIP_ID →
      s5k3l6_check_sensor_id (Except.ok v) r2 = ENODEV_ERR) ∧
    (∀ (e : Int) (r2 : Except Int Nat),
      s5k3l6_check_sensor_id (Except.error e) r2 = ENODEV_ERR) ∧
    (∀ e : Int,
      s5k3l6_check_sensor_id (Except.ok CHIP_ID) (Except.error e) = e) ∧
    (∀ v : Nat, s5k3l6_check_sensor_id (Except.ok CHIP_ID) (Except.ok v) = 0) := by
  refine ⟨fun v r2 h => ?_, fun e r2 => ?_, fun e => ?_, fun v => ?_⟩
  · simp [s5k3l6_check_sensor_id, h]
  · simp [s5k3l6_check_sensor_id, CHIP_ID]
  · simp [s5k3l6_check_sensor_id]
  · simp [s5k3l6_check_sensor_id]

/-- Witness for C8 (amended) at concrete inputs. -/
theorem chip_id_check_amended_witness :
    s5k3l6_check_sensor_id (Except.ok 0x30c5) (Except.ok 1) = ENODEV_ERR ∧
    s5k3l6_check_sensor_id (Except.error (-5)) (Except.ok 1) = ENODEV_ERR ∧
    s5k3l6_check_sensor_id (Except.ok CHIP_ID) (Except.error (-5)) = -5 ∧
    s5k3l6_check_sensor_id (Except.ok CHIP_ID) (Except.ok 1) = 0 :=
  ⟨chip_id_check_amended.1 0x30c5 (Except.ok 1) (by decide),
   chip_id_check_amended.2.1 (-5) (Except.ok 1),
   chip_id_check_amended.2.2.1 (-5),
   chip_id_check_amended.2.2.2 1⟩

/-- The entries of a register program before the `REG_NULL` sentinel. -/
def progPre (regs : List Regval) : List Regval :=
  regs.takeWhile (fun r => r.addr != REG_NULL)

/-- A logged successful 16-bit program write. -/
def okWrite (r : Regval) : WriteOp × Bool := (⟨r.addr, 2, u32 r.val⟩, true)

/-- A logged failed 16-bit program write. -/
def failWrite (r : Regval) : WriteOp × Bool := (⟨r.addr, 2, u32 r.val⟩, false)

/-- C5: applying a register program writes its entries in order up to the
first `REG_NULL` sentinel: there is a `k` such that the first `k`
pre-sentinel entries were written successfully, and either `k` covers all
of them and 0 is returned, or entry `k` is the failing write — logged as
the last attempted transaction, so nothing after it is written — and its
error `-EIO` is returned. -/
theorem write_array_first_failure (bus : Bus) (regs : List Regval)
    (st : BusState) :
    ∃ k, k ≤ (progPre regs).length ∧
      (s5k3l6_write_array bus st regs).2.log =
        st.log ++ ((progPre regs).take k).map okWrite ++
          (if k < (progPre regs).length
           then [failWrite ((progPre regs).getD k ⟨0, 0⟩)] else []) ∧
      (k = (progPre regs).length → (s5k3l6_write_array bus st regs).1 = 0) ∧
      (k < (progPre regs).length → (s5k3l6_write_array bus st regs).1 = EIO_ERR) := by
  induction regs generalizing st with
  | nil =>
    exact ⟨0, by simp [progPre, s5k3l6_write_array]⟩
  | cons r rs ih =>
    by_cases hnull : r.addr = REG_NULL
    · refine ⟨0, ?_⟩
      simp [progPre, s5k3l6_write_array, hnull]
    · have hpre : progPre (r :: rs) = r :: progPre rs := by
        simp [progPre, List.takeWhile_cons, hnull]
      by_cases hbus : bus st.count ⟨r.addr, 2, u32 r.val⟩ = true
      · have hw : s5k3l6_write_reg bus st r.addr 2 r.val =
            (0, ⟨st.count + 1, st.log ++ [okWrite r]⟩) := by
          unfold s5k3l6_write_reg
          simp [hbus, okWrite]
        have harr : s5k3l6_write_array bus st (r :: rs) =
            s5k3l6_write_array bus ⟨st.count + 1, st.log ++ [okWrite r]⟩ rs := by
          conv_lhs => unfold s5k3l6_write_array
          rw [if_neg hnull, hw]
          simp only []
          norm_num
        obtain ⟨k, hk, hlog, h0, he⟩ := ih ⟨st.count + 1, st.log ++ [okWrite r]⟩
        refine ⟨k + 1, ?_, ?_, ?_, ?_⟩
        · rw [hpre]
          simpa using hk
        · rw [harr, hpre]
          simpa [List.append_assoc] using hlog
        · intro h
          rw [harr]
          exact h0 (by rw [hpre] at h; simpa using h)
        · intro h
          rw [harr]
          exact he (by rw [hpre] at h; simpa using h)
      · have hw : s5k3l6_write_reg bus st r.addr 2 r.val =
            (EIO_ERR, ⟨st.count + 1, st.log ++ [failWrite r]⟩) := by
          unfold s5k3l6_write_reg
          simp [hbus, failWrite]
        have harr : s5k3l6_write_array bus st (r :: rs) =
            (EIO_ERR, ⟨st.count + 1, st.log ++ [failWrite r]⟩) := by
          conv_lhs => unfold s5k3l6_write_array
          rw [if_neg hnull, hw]
          norm_num [EIO_ERR]
        refine ⟨0, by simp [hpre], ?_, ?_, ?_⟩
        · rw [harr, hpre]
          simp
        · intro h
          rw [hpre] at h
          simp at h
        · intro _
          rw [harr]

/-- Witness for C5 at a concrete input: a two-entry program on a bus whose
second transaction fails. -/
theorem write_array_first_failure_witness :
    ∃ k, k ≤ (progPre [⟨0x0100, 0⟩, ⟨0x0101, 1⟩, ⟨REG_NULL, 0⟩]).length ∧
      (s5k3l6_write_array (fun i _ => i == 0) ⟨0, []⟩
          [⟨0x0100, 0⟩, ⟨0x0101, 1⟩, ⟨REG_NULL, 0⟩]).2.log =
        [] ++ ((progPre [⟨0x0100, 0⟩, ⟨0x0101, 1⟩, ⟨REG_NULL, 0⟩]).take k).map okWrite ++
          (if k < (progPre [⟨0x0100, 0⟩, ⟨0x0101, 1⟩, ⟨REG_NULL, 0⟩]).length
           then [failWrite ((progPre [⟨0x0100, 0⟩, ⟨0x0101, 1⟩, ⟨REG_NULL, 0⟩]).getD k ⟨0, 0⟩)]
           else []) ∧
      (k = (progPre [⟨0x0100, 0⟩, ⟨0x0101, 1⟩, ⟨REG_NULL, 0⟩]).length →
        (s5k3l6_write_array (fun i _ => i == 0) ⟨0, []⟩
          [⟨0x0100, 0⟩, ⟨0x0101, 1⟩, ⟨REG_NULL, 0⟩]).1 = 0) ∧
      (k < (progPre [⟨0x0100, 0⟩, ⟨0x0101, 1⟩, ⟨REG_NULL, 0⟩]).length →
        (s5k3l6_write_array (fun i _ => i == 0) ⟨0, []⟩
          [⟨0x0100, 0⟩, ⟨0x0101, 1⟩, ⟨REG_NULL, 0⟩]).1 = EIO_ERR) :=
  write_array_first_failure (fun i _ => i == 0)
    [⟨0x0100, 0⟩, ⟨0x0101, 1⟩, ⟨REG_NULL, 0⟩] ⟨0, []⟩

/-- C3: when applying the active mode's register program during stream
start fails, `s5k3l6_s_stream(.., 1)` returns that error, the streaming
flag stays false (the stream remains Stopped), and the runtime-PM
reference acquired at the beginning of start is released again (`pm`
returns to its previous value). -/
theorem stream_start_failure (bus : Bus) (s : Device) (st : BusState)
    (hstream : s.streaming = false)
    (hfail : (s5k3l6_write_array bus st s.cur_mode.reg_list).1 ≠ 0) :
    (s5k3l6_s_stream bus s st 1).1 =
      (s5k3l6_write_array bus st s.cur_mode.reg_list).1 ∧
    (s5k3l6_s_stream bus s st 1).2.1.streaming = false ∧
    (s5k3l6_s_stream bus s st 1).2.1.pm = s.pm := by
  unfold s5k3l6_s_stream __s5k3l6_start_stream
  simp [hstream, hfail]

/-- Witness for C3: on the initial device with a bus that fails every
transfer, stream start returns `-EIO`, stays Stopped, and the power
reference count is back at its initial value. -/
theorem stream_start_failure_witness :
    (s5k3l6_s_stream (fun _ _ => false) initDevice ⟨0, []⟩ 1).1 =
      (s5k3l6_write_array (fun _ _ => false) ⟨0, []⟩ initDevice.cur_mode.reg_list).1 ∧
    (s5k3l6_s_stream (fun _ _ => false) initDevice ⟨0, []⟩ 1).2.1.streaming = false ∧
    (s5k3l6_s_stream (fun _ _ => false) initDevice ⟨0, []⟩ 1).2.1.pm = initDevice.pm :=
  stream_start_failure (fun _ _ => false) initDevice ⟨0, []⟩ rfl (by decide)

/-- Helper: effects of the exposure modify-range step inside the
vertical-blank handler — the exposure bounds are installed whatever
happens, no other device field changes, nothing touches the bus when no
power reference is held, and any bus traffic is writes to the exposure
register only. -/
theorem modify_exposure_fields (bus : Bus) (s : Device) (st : BusState)
    (mn mx stp df : Int) :
    (v4l2ModifyRangeExposure bus s st mn mx stp df).1.exposure.maximum = mx ∧
    (v4l2ModifyRangeExposure bus s st mn mx stp df).1.cur_mode = s.cur_mode ∧
    (v4l2ModifyRangeExposure bus s st mn mx stp df).1.pm = s.pm ∧
    (v4l2ModifyRangeExposure bus s st mn mx stp df).1.vblank = s.vblank ∧
    (s.pm = 0 → (v4l2ModifyRangeExposure bus s st mn mx stp df).2 = st) ∧
    ∃ pre, (v4l2ModifyRangeExposure bus s st mn mx stp df).2.log = st.log ++ pre ∧
      ∀ x ∈ pre, x.1.addr = S5K3L6_REG_EXPOSURE := by
  by_cases hch : clampC mn mx s.exposure.val = s.exposure.val
  · have h : v4l2ModifyRangeExposure bus s st mn mx stp df =
        ({ s with exposure := ⟨mn, mx, stp, df, clampC mn mx s.exposure.val⟩ }, st) := by
      unfold v4l2ModifyRangeExposure modifyRangeCore
      simp [hch]
    rw [h]
    exact ⟨rfl, rfl, rfl, rfl, fun _ => rfl, [], by simp, by simp⟩
  · by_cases h0 : s.pm = 0
    · have h : v4l2ModifyRangeExposure bus s st mn mx stp df =
          ({ s with exposure := ⟨mn, mx, stp, df, clampC mn mx s.exposure.val⟩ }, st) := by
        unfold v4l2ModifyRangeExposure modifyRangeCore
        simp [hch, h0]
      rw [h]
      exact ⟨rfl, rfl, rfl, rfl, fun _ => rfl, [], by simp, by simp⟩
    · by_cases hw : bus st.count
          ⟨S5K3L6_REG_EXPOSURE, 2, u32 (intToU32 (clampC mn mx s.exposure.val))⟩ = true
      · have h : v4l2ModifyRangeExposure bus s st mn mx stp df =
            ({ s with exposure := ⟨mn, mx, stp, df, clampC mn mx s.exposure.val⟩ },
             ⟨st.count + 1, st.log ++
               [(⟨S5K3L6_REG_EXPOSURE, 2, u32 (intToU32 (clampC mn mx s.exposure.val))⟩,
                 true)]⟩) := by
          unfold v4l2ModifyRangeExposure modifyRangeCore s5k3l6_write_reg
          simp [hch, h0, hw]
        rw [h]
        refine ⟨rfl, rfl, rfl, rfl, fun hc => absurd hc h0, [_], rfl, by simp⟩
      · have h : v4l2ModifyRangeExposure bus s st mn mx stp df =
            ({ s with exposure := ⟨mn, mx, stp, df, s.exposure.val⟩ },
             ⟨st.count + 1, st.log ++
               [(⟨S5K3L6_REG_EXPOSURE, 2, u32 (intToU32 (clampC mn mx s.exposure.val))⟩,
                 false)]⟩) := by
          unfold v4l2ModifyRangeExposure modifyRangeCore s5k3l6_write_reg
          simp [hch, h0, hw, EIO_ERR]
        rw [h]
        refine ⟨rfl, rfl, rfl, rfl, fun hc => absurd hc h0, [_], rfl, by simp⟩

/-- C6: the driver's vertical-blank `s_ctrl` recomputes the exposure
control's maximum as `cur_mode.height + new_vblank - 4` in every case,
and writes the vertical-blank-total register 0x0340 with
`new_vblank + cur_mode.height` exactly when a power reference is held
(`pm_runtime_get_if_in_use` succeeding); without one no bus transaction
occurs and the call returns success, the value staying cached for replay
at the next stream start.  Any write preceding the 0x0340 write is the
exposure-register write the re-entrant exposure clamp may issue. -/
theorem vblank_ctrl_write_through (bus : Bus) (s : Device) (st : BusState)
    (v : Int) :
    (s5k3l6_set_ctrl bus s st .VBLANK v).2.1.exposure.maximum =
      (s.cur_mode.height : Int) + v - 4 ∧
    (s.pm = 0 → (s5k3l6_set_ctrl bus s st .VBLANK v).2.2 = st ∧
      (s5k3l6_set_ctrl bus s st .VBLANK v).1 = 0) ∧
    (s.pm ≠ 0 → ∃ pre b,
      (s5k3l6_set_ctrl bus s st .VBLANK v).2.2.log = st.log ++ pre ++
        [(⟨S5K3L6_REG_VTS, 2, u32 (intToU32 (v + (s.cur_mode.height : Int)))⟩, b)] ∧
      (∀ x ∈ pre, x.1.addr = S5K3L6_REG_EXPOSURE) ∧
      (s5k3l6_set_ctrl bus s st .VBLANK v).1 = if b then 0 else EIO_ERR) := by
  obtain ⟨hmax, hmode, hpm, hvb, hst0, pre, hlog, hpre⟩ :=
    modify_exposure_fields bus s st s.exposure.minimum
      ((s.cur_mode.height : Int) + v - 4) s.exposure.step s.exposure.default_value
  simp only [s5k3l6_set_ctrl, hpm, hmode]
  by_cases h0 : s.pm = 0
  · rw [if_pos h0]
    exact ⟨hmax, fun _ => ⟨hst0 h0, rfl⟩, fun hn => absurd h0 hn⟩
  · rw [if_neg h0]
    refine ⟨hmax, fun hc => absurd hc h0, fun _ => ?_⟩
    rw [write_reg_bst bus _ S5K3L6_REG_VTS 2 _ (by omega),
        write_reg_ret bus _ S5K3L6_REG_VTS 2 _ (by omega)]
    refine ⟨pre, _, ?_, hpre, rfl⟩
    simp [hlog]

/-- Witness for C6 at concrete inputs: on the unpowered initial device a
vertical-blank set performs no bus transaction and returns 0; with a
power reference held the 0x0340 write is issued. -/
theorem vblank_ctrl_write_through_witness :
    ((s5k3l6_set_ctrl busOk initDevice ⟨0, []⟩ .VBLANK 200).2.2 = ⟨0, []⟩ ∧
     (s5k3l6_set_ctrl busOk initDevice ⟨0, []⟩ .VBLANK 200).1 = 0) ∧
    (∃ pre b,
      (s5k3l6_set_ctrl busOk { initDevice with pm := 1 } ⟨0, []⟩ .VBLANK 200).2.2.log =
        ([] : List (WriteOp × Bool)) ++ pre ++
          [(⟨S5K3L6_REG_VTS, 2,
             u32 (intToU32 (200 + ((initDevice.cur_mode.height : Nat) : Int)))⟩, b)] ∧
      (∀ x ∈ pre, x.1.addr = S5K3L6_REG_EXPOSURE) ∧
      (s5k3l6_set_ctrl busOk { initDevice with pm := 1 } ⟨0, []⟩ .VBLANK 200).1 =
        if b then 0 else EIO_ERR) :=
  ⟨(vblank_ctrl_write_through busOk initDevice ⟨0, []⟩ 200).2.1 rfl,
   (vblank_ctrl_write_through busOk { initDevice with pm := 1 } ⟨0, []⟩ 200).2.2
     (by decide)⟩

/-- The three writes of the streaming-enable quirk sequence as logged
attempts starting at transaction index `n` (mirrors the tail of
`__s5k3l6_start_stream`). -/
def quirkTail (bus : Bus) (n : Nat) : List (WriteOp × Bool) :=
  [(⟨S5K3L6_REG_STREAM_ON, 1, u32 S5K3L6_MODE_STREAMING⟩,
    bus n ⟨S5K3L6_REG_STREAM_ON, 1, u32 S5K3L6_MODE_STREAMING⟩),
   (⟨S5K3L6_REG_CTRL_MODE, 1, u32 S5K3L6_MODE_STREAMING⟩,
    bus (n + 1) ⟨S5K3L6_REG_CTRL_MODE, 1, u32 S5K3L6_MODE_STREAMING⟩),
   (⟨S5K3L6_REG_STREAM_ON, 1, u32 S5K3L6_MODE_SW_STANDBY⟩,
    bus (n + 2) ⟨S5K3L6_REG_STREAM_ON, 1, u32 S5K3L6_MODE_SW_STANDBY⟩)]

/-- C4 counterexample: the claim that the state transitions to Streaming
only after all three enable-sequence writes succeed is false — with a bus
that fails exactly the one-byte writes to the streaming-enable register,
stream start still returns 0 and sets the streaming flag although the
first quirk write's transfer failed. -/
theorem enable_sequence_failure_ignored :
    (s5k3l6_s_stream (fun _ op => !(op.addr == S5K3L6_REG_STREAM_ON && op.len == 1))
        initDevice ⟨0, []⟩ 1).1 = 0 ∧
    (s5k3l6_s_stream (fun _ op => !(op.addr == S5K3L6_REG_STREAM_ON && op.len == 1))
        initDevice ⟨0, []⟩ 1).2.1.streaming = true ∧
    (⟨S5K3L6_REG_STREAM_ON, 1, u32 S5K3L6_MODE_STREAMING⟩, false) ∈
      (s5k3l6_s_stream (fun _ op => !(op.addr == S5K3L6_REG_STREAM_ON && op.len == 1))
        initDevice ⟨0, []⟩ 1).2.2.log := by
  decide

/-- C4 amended: when the mode register program and the control replay
succeed during stream start, the driver then attempts exactly the
sequence streaming-enable := streaming value, mode-control := streaming
value, streaming-enable := standby value (the quirk double write), in
that order, as the final three bus transactions — but their return codes
are discarded: `s_stream` returns 0 and the state transitions to
Streaming whether or not those three writes succeed. -/
theorem enable_sequence_amended (bus : Bus) (s : Device) (st : BusState)
    (hstream : s.streaming = false)
    (harr : (s5k3l6_write_array bus st s.cur_mode.reg_list).1 = 0)
    (hsetup : (v4l2_ctrl_handler_setup bus
        { s with pm := s.pm + 1, power := (s5k3l6_set_power s.power 1).1 }
        (s5k3l6_write_array bus st s.cur_mode.reg_list).2).1 = 0) :
    s5k3l6_s_stream bus s st 1 =
      (0,
       { (v4l2_ctrl_handler_setup bus
            { s with pm := s.pm + 1, power := (s5k3l6_set_power s.power 1).1 }
            (s5k3l6_write_array bus st s.cur_mode.reg_list).2).2.1
          with streaming := true },
       ⟨(v4l2_ctrl_handler_setup bus
            { s with pm := s.pm + 1, power := (s5k3l6_set_power s.power 1).1 }
            (s5k3l6_write_array bus st s.cur_mode.reg_list).2).2.2.count + 3,
        (v4l2_ctrl_handler_setup bus
            { s with pm := s.pm + 1, power := (s5k3l6_set_power s.power 1).1 }
            (s5k3l6_write_array bus st s.cur_mode.reg_list).2).2.2.log ++
          quirkTail bus
            ((v4l2_ctrl_handler_setup bus
                { s with pm := s.pm + 1, power := (s5k3l6_set_power s.power 1).1 }
                (s5k3l6_write_array bus st s.cur_mode.reg_list).2).2.2.count)⟩) := by
  unfold s5k3l6_s_stream __s5k3l6_start_stream
  rw [if_neg (show ¬(((1 : Nat) != 0) = s.streaming) by simp [hstream])]
  rw [if_pos (show (((1 : Nat) != 0) = true) by decide)]
  dsimp only
  rw [if_neg (show ¬((s5k3l6_write_array bus st s.cur_mode.reg_list).1 ≠ 0) by
        simp [harr])]
  rw [if_neg (show ¬((v4l2_ctrl_handler_setup bus
      { s with pm := s.pm + 1, power := (s5k3l6_set_power s.power 1).1 }
      (s5k3l6_write_array bus st s.cur_mode.reg_list).2).1 ≠ 0) by simp [hsetup])]
  dsimp only
  rw [write_reg_bst bus _ S5K3L6_REG_STREAM_ON 1 _ (by omega)]
  rw [write_reg_bst bus _ S5K3L6_REG_CTRL_MODE 1 _ (by omega)]
  rw [write_reg_bst bus _ S5K3L6_REG_STREAM_ON 1 _ (by omega)]
  simp [quirkTail, List.append_assoc]

/-- Witness for C4 (amended) at concrete inputs: on the initial device
with a bus that never fails, stream start ends with exactly the quirk
triple as the final three logged transactions and the Streaming flag
set. -/
theorem enable_sequence_amended_witness :
    s5k3l6_s_stream busOk initDevice ⟨0, []⟩ 1 =
      (0,
       { (v4l2_ctrl_handler_setup busOk
            { initDevice with
                pm := initDevice.pm + 1
                power := (s5k3l6_set_power initDevice.power 1).1 }
            (s5k3l6_write_array busOk ⟨0, []⟩ initDevice.cur_mode.reg_list).2).2.1
          with streaming := true },
       ⟨(v4l2_ctrl_handler_setup busOk
            { initDevice with
                pm := initDevice.pm + 1
                power := (s5k3l6_set_power initDevice.power 1).1 }
            (s5k3l6_write_array busOk ⟨0, []⟩ initDevice.cur_mode.reg_list).2).2.2.count + 3,
        (v4l2_ctrl_handler_setup busOk
            { initDevice with
                pm := initDevice.pm + 1
                power := (s5k3l6_set_power initDevice.power 1).1 }
            (s5k3l6_write_array busOk ⟨0, []⟩ initDevice.cur_mode.reg_list).2).2.2.log ++
          quirkTail busOk
            ((v4l2_ctrl_handler_setup busOk
                { initDevice with
                    pm := initDevice.pm + 1
                    power := (s5k3l6_set_power initDevice.power 1).1 }
                (s5k3l6_write_array busOk ⟨0, []⟩ initDevice.cur_mode.reg_list).2).2.2.count)⟩) :=
  enable_sequence_amended busOk initDevice ⟨0, []⟩ rfl (by decide) (by decide)

/-- C2 counterexample: `s5k3l6_get_reso_dist` subtracts in unsigned 32-bit
arithmetic before taking `abs`, so for a huge requested width the
computed distance wraps: at requested size (4294967295, 3120) the code
selects catalog index 1 although index 0 has the strictly smaller true
Manhattan distance. -/
theorem best_fit_not_minimizer :
    s5k3l6_find_best_fit_idx 4294967295 3120 = 1 ∧
    manhattanDistSpec (modeAt 0) 4294967295 3120 <
      manhattanDistSpec (modeAt 1) 4294967295 3120 := by
  decide

/-- Helper: `absC` of a `u32` difference is the true absolute difference
when both operands are below 2^31 (no wrap, no `INT_MIN` corner). -/
theorem absC_u32sub_eq (a b : Nat) (ha : a < 2147483648) (hb : b < 2147483648) :
    absC (u32sub a b) = (((a : Int) - b).natAbs : Int) := by
  unfold absC u32sub intOfU32 u32
  split_ifs with h <;> omega

/-- Helper: in the wrap-free range the computed resolution distance equals
the specification's Manhattan distance. -/
theorem reso_dist_eq_manhattan (m : Mode) (fw fh : Nat)
    (hmw : m.width < 2147483648) (hmh : m.height < 2147483648)
    (hw : fw < 2147483648) (hh : fh < 2147483648) :
    s5k3l6_get_reso_dist m fw fh = (manhattanDistSpec m fw fh : Int) := by
  unfold s5k3l6_get_reso_dist manhattanDistSpec
  rw [absC_u32sub_eq _ _ hmw hw, absC_u32sub_eq _ _ hmh hh]
  push_cast
  ring

/-- Helper: on a two-entry catalog the search loop returns index 1 exactly
when its distance is strictly smaller than index 0's, so ties go to the
first entry. -/
theorem findBestFitAux_two (fw fh : Nat) (m0 m1 : Mode) :
    findBestFitAux fw fh [m0, m1] 0 0 (-1) =
      if s5k3l6_get_reso_dist m1 fw fh < s5k3l6_get_reso_dist m0 fw fh
      then 1 else 0 := by
  have h0 : (0 : Int) ≤ s5k3l6_get_reso_dist m0 fw fh := by
    unfold s5k3l6_get_reso_dist absC
    positivity
  show (let d := s5k3l6_get_reso_dist m0 fw fh
        if (-1 : Int) = -1 ∨ d < -1 then findBestFitAux fw fh [m1] 1 0 d
        else findBestFitAux fw fh [m1] 1 0 (-1)) = _
  rw [if_pos (Or.inl rfl)]
  show (let d := s5k3l6_get_reso_dist m1 fw fh
        if s5k3l6_get_reso_dist m0 fw fh = -1 ∨ d < s5k3l6_get_reso_dist m0 fw fh
        then findBestFitAux fw fh [] 2 1 d
        else findBestFitAux fw fh [] 2 0 (s5k3l6_get_reso_dist m0 fw fh)) = _
  by_cases h : s5k3l6_get_reso_dist m1 fw fh < s5k3l6_get_reso_dist m0 fw fh
  · rw [if_pos (Or.inr h), if_pos h]
    rfl
  · rw [if_neg (by push_neg; exact ⟨by omega, by omega⟩), if_neg h]
    rfl

/-- C2 amended: for requested sizes in the wrap-free range (below 2^30,
which covers every real resolution), `s5k3l6_find_best_fit` returns the
catalog entry minimizing the Manhattan distance, ties resolving to the
lower catalog index, and the returned index is always a valid catalog
index; outside that range the unsigned wrap-around of
`s5k3l6_get_reso_dist` can select a non-minimizing entry. -/
theorem best_fit_minimizes (fw fh : Nat)
    (hw : fw < 1073741824) (hh : fh < 1073741824) :
    s5k3l6_find_best_fit_idx fw fh < supported_modes.length ∧
    ∀ i, i < supported_modes.length →
      manhattanDistSpec (modeAt (s5k3l6_find_best_fit_idx fw fh)) fw fh ≤
        manhattanDistSpec (modeAt i) fw fh ∧
      (manhattanDistSpec (modeAt i) fw fh =
         manhattanDistSpec (modeAt (s5k3l6_find_best_fit_idx fw fh)) fw fh →
       s5k3l6_find_best_fit_idx fw fh ≤ i) := by
  have hsm : supported_modes = [modeAt 0, modeAt 1] := rfl
  have hd0 := reso_dist_eq_manhattan (modeAt 0) fw fh (by decide) (by decide)
    (by omega) (by omega)
  have hd1 := reso_dist_eq_manhattan (modeAt 1) fw fh (by decide) (by decide)
    (by omega) (by omega)
  have hidx : s5k3l6_find_best_fit_idx fw fh =
      if (manhattanDistSpec (modeAt 1) fw fh : Int) <
         (manhattanDistSpec (modeAt 0) fw fh : Int) then 1 else 0 := by
    unfold s5k3l6_find_best_fit_idx
    rw [hsm, findBestFitAux_two, hd0, hd1]
  rw [hidx, hsm]
  by_cases hcmp : (manhattanDistSpec (modeAt 1) fw fh : Int) <
      (manhattanDistSpec (modeAt 0) fw fh : Int)
  · rw [if_pos hcmp]
    have hlt : manhattanDistSpec (modeAt 1) fw fh <
        manhattanDistSpec (modeAt 0) fw fh := by exact_mod_cast hcmp
    refine ⟨by simp, fun i hi => ?_⟩
    have : i = 0 ∨ i = 1 := by
      have h2 : i < 2 := by simpa using hi
      omega
    rcases this with rfl | rfl
    · exact ⟨by omega, fun he => by omega⟩
    · exact ⟨le_refl _, fun _ => le_refl _⟩
  · rw [if_neg hcmp]
    have hle : manhattanDistSpec (modeAt 0) fw fh ≤
        manhattanDistSpec (modeAt 1) fw fh := by
      have := not_lt.mp hcmp
      exact_mod_cast this
    refine ⟨by simp, fun i hi => ?_⟩
    have : i = 0 ∨ i = 1 := by
      have h2 : i < 2 := by simpa using hi
      omega
    rcases this with rfl | rfl
    · exact ⟨le_refl _, fun _ => le_refl _⟩
    · exact ⟨hle, fun _ => by omega⟩

/-- Witness for C2 (amended) at the specification's own example: requested
(2200, 1600) selects the 2104x1560 entry (index 1, distance 136) over the
4208x3120 one. -/
theorem best_fit_minimizes_witness :
    s5k3l6_find_best_fit_idx 2200 1600 < supported_modes.length ∧
    ∀ i, i < supported_modes.length →
      manhattanDistSpec (modeAt (s5k3l6_find_best_fit_idx 2200 1600)) 2200 1600 ≤
        manhattanDistSpec (modeAt i) 2200 1600 ∧
      (manhattanDistSpec (modeAt i) 2200 1600 =
         manhattanDistSpec (modeAt (s5k3l6_find_best_fit_idx 2200 1600)) 2200 1600 →
       s5k3l6_find_best_fit_idx 2200 1600 ≤ i) :=
  best_fit_minimizes 2200 1600 (by decide) (by decide)

/-- Helper: `clampC` stays within the bounds when they are ordered, and is
never above the upper bound. -/
theorem clampC_bounds (lo hi v : Int) (h : lo ≤ hi) :
    lo ≤ clampC lo hi v ∧ clampC lo hi v ≤ hi :=
  ⟨le_min h (le_max_left lo v), min_le_left hi (max lo v)⟩

/-- Helper: `clampC` is the identity on values inside the range. -/
theorem clampC_of_mem (lo hi v : Int) (h1 : lo ≤ v) (h2 : v ≤ hi) :
    clampC lo hi v = v := by
  unfold clampC
  rw [max_eq_right h1, min_eq_right h2]

/-- Helper: under a bus that never fails, the exposure modify-range step
installs the new bounds and the clamped value and changes nothing else in
the device. -/
theorem modify_exposure_busOk (s : Device) (st : BusState) (mn mx stp df : Int) :
    (v4l2ModifyRangeExposure busOk s st mn mx stp df).1 =
      { s with exposure := ⟨mn, mx, stp, df, clampC mn mx s.exposure.val⟩ } := by
  unfold v4l2ModifyRangeExposure modifyRangeCore s5k3l6_write_reg busOk
  by_cases hch : clampC mn mx s.exposure.val = s.exposure.val <;>
    by_cases h0 : s.pm = 0 <;>
    simp [hch, h0]

/-- Helper: under a bus that never fails the vertical-blank `s_ctrl`
callback returns 0 and rewrites only the exposure control (new maximum
`height + v - 4`, value clamped). -/
theorem set_ctrl_vblank_busOk (s : Device) (st : BusState) (v : Int) :
    (s5k3l6_set_ctrl busOk s st .VBLANK v).1 = 0 ∧
    (s5k3l6_set_ctrl busOk s st .VBLANK v).2.1 =
      { s with exposure :=
          ⟨s.exposure.minimum, (s.cur_mode.height : Int) + v - 4,
           s.exposure.step, s.exposure.default_value,
           clampC s.exposure.minimum ((s.cur_mode.height : Int) + v - 4)
             s.exposure.val⟩ } := by
  have hm := modify_exposure_busOk s st s.exposure.minimum
      ((s.cur_mode.height : Int) + v - 4) s.exposure.step s.exposure.default_value
  simp only [s5k3l6_set_ctrl, hm]
  by_cases h0 : s.pm = 0 <;>
    simp [h0, s5k3l6_write_reg, busOk]

/-- Helper: under a bus that never fails, a user vertical-blank set with
an in-range changed value commits the value and rewrites the exposure
range; an unchanged value is a no-op. -/
theorem user_set_vblank_busOk (s : Device) (st : BusState) (v : Int)
    (h1 : s.vblank.minimum ≤ v) (h2 : v ≤ s.vblank.maximum) :
    (v4l2SetCtrlVblank busOk s st v).2.1 =
      if v = s.vblank.val then s
      else
        { s with
            exposure :=
              ⟨s.exposure.minimum, (s.cur_mode.height : Int) + v - 4,
               s.exposure.step, s.exposure.default_value,
               clampC s.exposure.minimum ((s.cur_mode.height : Int) + v - 4)
                 s.exposure.val⟩,
            vblank := { s.vblank with val := v } } := by
  obtain ⟨hret, hdev⟩ := set_ctrl_vblank_busOk s st v
  unfold v4l2SetCtrlVblank
  rw [clampC_of_mem _ _ _ h1 h2]
  by_cases hv : v = s.vblank.val
  · rw [if_pos hv, if_pos hv]
  · rw [if_neg hv, if_neg hv, if_pos hret, hdev]

/-- Helper: under a bus that never fails, the vertical-blank modify-range
step in `set_fmt` installs the new bounds with the clamped value and
keeps the current mode. -/
theorem modify_vblank_busOk (s : Device) (st : BusState) (mn mx stp df : Int) :
    (v4l2ModifyRangeVblank busOk s st mn mx stp df).1.vblank =
      ⟨mn, mx, stp, df, clampC mn mx s.vblank.val⟩ ∧
    (v4l2ModifyRangeVblank busOk s st mn mx stp df).1.cur_mode = s.cur_mode := by
  unfold v4l2ModifyRangeVblank modifyRangeCore
  by_cases hch : clampC mn mx s.vblank.val = s.vblank.val
  · simp [hch]
  · have h := set_ctrl_vblank_busOk
      { s with vblank := ⟨mn, mx, stp, df, s.vblank.val⟩ } st
      (clampC mn mx s.vblank.val)
    simp only [bne_iff_ne, ne_eq, hch, not_false_eq_true, if_true, ite_true]
    rw [if_pos h.1, h.2]
    simp [hch]

/-- Helper: the selected best-fit mode is always a catalog entry. -/
theorem find_best_fit_mem (fw fh : Nat) :
    s5k3l6_find_best_fit fw fh ∈ supported_modes := by
  have hsm : supported_modes = [modeAt 0, modeAt 1] := rfl
  unfold s5k3l6_find_best_fit s5k3l6_find_best_fit_idx
  rw [hsm, findBestFitAux_two]
  by_cases h : s5k3l6_get_reso_dist (modeAt 1) fw fh <
      s5k3l6_get_reso_dist (modeAt 0) fw fh
  · rw [if_pos h]
    simp [modeAt]
  · rw [if_neg h]
    simp [modeAt]

/-- Helper: every catalog entry has `vts_def ≤ S5K3L6_VTS_MAX`, so the
vertical-blank range installed for it is non-empty. -/
theorem catalog_vts_le :
    ∀ m ∈ supported_modes, m.vts_def ≤ S5K3L6_VTS_MAX := by
  decide

/-- Helper: device fields after an ACTIVE `set_fmt` under a bus that never
fails — the current mode becomes the best fit and the vertical-blank
control carries the new range with the old value clamped into it. -/
theorem set_fmt_active_busOk (s : Device) (st : BusState) (try0 f : MbusFmt) :
    (s5k3l6_set_fmt busOk s st try0 .ACTIVE f).dev.cur_mode =
      s5k3l6_find_best_fit f.width f.height ∧
    (s5k3l6_set_fmt busOk s st try0 .ACTIVE f).dev.vblank =
      ⟨((s5k3l6_find_best_fit f.width f.height).vts_def : Int) -
         ((s5k3l6_find_best_fit f.width f.height).height : Int),
       (S5K3L6_VTS_MAX : Int) - ((s5k3l6_find_best_fit f.width f.height).height : Int),
       1,
       ((s5k3l6_find_best_fit f.width f.height).vts_def : Int) -
         ((s5k3l6_find_best_fit f.width f.height).height : Int),
       clampC
         (((s5k3l6_find_best_fit f.width f.height).vts_def : Int) -
           ((s5k3l6_find_best_fit f.width f.height).height : Int))
         ((S5K3L6_VTS_MAX : Int) - ((s5k3l6_find_best_fit f.width f.height).height : Int))
         s.vblank.val⟩ := by
  obtain ⟨hvb, hcm⟩ := modify_vblank_busOk
    { s with
        cur_mode := s5k3l6_find_best_fit f.width f.height
        hblank :=
          (modifyRangeCore s.hblank
            ((s5k3l6_find_best_fit f.width f.height).hts_def -
              ((s5k3l6_find_best_fit f.width f.height).width : Int))
            ((s5k3l6_find_best_fit f.width f.height).hts_def -
              ((s5k3l6_find_best_fit f.width f.height).width : Int)) 1
            ((s5k3l6_find_best_fit f.width f.height).hts_def -
              ((s5k3l6_find_best_fit f.width f.height).width : Int))).1 }
    st
    (((s5k3l6_find_best_fit f.width f.height).vts_def : Int) -
      ((s5k3l6_find_best_fit f.width f.height).height : Int))
    ((S5K3L6_VTS_MAX : Int) - ((s5k3l6_find_best_fit f.width f.height).height : Int))
    1
    (((s5k3l6_find_best_fit f.width f.height).vts_def : Int) -
      ((s5k3l6_find_best_fit f.width f.height).height : Int))
  simp only [s5k3l6_set_fmt]
  exact ⟨hcm, hvb⟩

/-- Helper: one valid operation preserves the vertical-blank invariant. -/
theorem vblank_inv_step (s : Device) (op : CtrlOp)
    (h : VblankInv s) (hv : validOp s op = true) :
    VblankInv (stepOp s op) := by
  obtain ⟨hmem, hmin, hmax, hlo, hhi⟩ := h
  cases op with
  | setFmt fw fh =>
    obtain ⟨hcm, hvb⟩ := set_fmt_active_busOk s ⟨0, []⟩ ⟨0, 0, 0, 0⟩ ⟨fw, fh, 0, 0⟩
    have hmem2 := find_best_fit_mem fw fh
    have hvts := catalog_vts_le _ hmem2
    have hord : ((s5k3l6_find_best_fit fw fh).vts_def : Int) -
        ((s5k3l6_find_best_fit fw fh).height : Int) ≤
        (S5K3L6_VTS_MAX : Int) - ((s5k3l6_find_best_fit fw fh).height : Int) := by
      omega
    obtain ⟨hc1, hc2⟩ := clampC_bounds _ _ s.vblank.val hord
    exact ⟨by rw [stepOp, hcm]; exact hmem2,
           by rw [stepOp, hvb, hcm],
           by rw [stepOp, hvb, hcm],
           by rw [stepOp, hvb]; exact hc1,
           by rw [stepOp, hvb]; exact hc2⟩
  | setVblank v =>
    have hv' : s.vblank.minimum ≤ v ∧ v ≤ s.vblank.maximum := by
      simpa [validOp] using hv
    have hd := user_set_vblank_busOk s ⟨0, []⟩ v hv'.1 hv'.2
    by_cases hveq : v = s.vblank.val
    · rw [stepOp, hd, if_pos hveq]
      exact ⟨hmem, hmin, hmax, hlo, hhi⟩
    · rw [stepOp, hd, if_neg hveq]
      exact ⟨hmem, hmin, hmax, hv'.1, hv'.2⟩

/-- Helper: a valid operation sequence preserves the vertical-blank
invariant along the whole run. -/
theorem vblank_inv_run (ops : List CtrlOp) :
    ∀ s, VblankInv s → validSeq s ops = true → VblankInv (runOps s ops) := by
  induction ops with
  | nil => exact fun s h _ => h
  | cons op ops ih =>
    intro s h hval
    rw [validSeq, Bool.and_eq_true] at hval
    exact ih _ (vblank_inv_step s op h hval.1) hval.2

/-- C1 counterexample: the invariant
`exposure_max ≤ vertical_blank + height - 4` is NOT maintained by mode
selection.  Starting from the initial device, the in-range set
`vblank := 5000` (range [140, 62407] of the 4208x3120 mode) raises the
exposure maximum to 3120 + 5000 - 4 = 8116; selecting the 2104x1560 mode
then leaves 5000 inside the new range [1700, 63967], so no clamping (and
no exposure-range recomputation) happens, and the stale maximum 8116
exceeds the required bound 1560 + 5000 - 4 = 6556. -/
theorem exposure_bound_broken_by_set_fmt :
    validSeq initDevice [CtrlOp.setVblank 5000, CtrlOp.setFmt 2104 1560] = true ∧
    ((runOps initDevice
        [CtrlOp.setVblank 5000, CtrlOp.setFmt 2104 1560]).cur_mode.height : Int) +
      (runOps initDevice
        [CtrlOp.setVblank 5000, CtrlOp.setFmt 2104 1560]).vblank.val - 4 <
    (runOps initDevice
        [CtrlOp.setVblank 5000, CtrlOp.setFmt 2104 1560]).exposure.maximum := by
  decide

/-- C1 amended: after any sequence of mode selections and in-range
vertical-blank sets, the vertical-blank control always lies in
`[cur_mode.vts_def - height, VTS_MAX - height]` with its range matching
the current mode; and an in-range vertical-blank set that changes the
value re-establishes the exposure bound, making the new exposure maximum
exactly `height + new_vblank - 4` with the exposure value clamped at or
below it.  (The exposure bound itself is not an invariant of mode
selection: `set_fmt` does not recompute the exposure maximum when the
cached vertical-blank value lies inside the new mode's range.) -/
theorem vblank_exposure_invariant_amended :
    (∀ ops, validSeq initDevice ops = true → VblankInv (runOps initDevice ops)) ∧
    (∀ (s : Device) (v : Int),
      s.vblank.minimum ≤ v → v ≤ s.vblank.maximum → v ≠ s.vblank.val →
      (v4l2SetCtrlVblank busOk s ⟨0, []⟩ v).2.1.exposure.maximum =
        ((v4l2SetCtrlVblank busOk s ⟨0, []⟩ v).2.1.cur_mode.height : Int) +
          (v4l2SetCtrlVblank busOk s ⟨0, []⟩ v).2.1.vblank.val - 4 ∧
      (v4l2SetCtrlVblank busOk s ⟨0, []⟩ v).2.1.exposure.val ≤
        (v4l2SetCtrlVblank busOk s ⟨0, []⟩ v).2.1.exposure.maximum) := by
  constructor
  · exact fun ops hval => vblank_inv_run ops initDevice (by unfold VblankInv; decide) hval
  · intro s v h1 h2 hne
    have hd := user_set_vblank_busOk s ⟨0, []⟩ v h1 h2
    rw [hd, if_neg hne]
    refine ⟨rfl, ?_⟩
    exact min_le_left _ _

/-- Witness for C1 (amended) at concrete inputs: the invariant holds after
the in-range set `vblank := 200` on the initial device, and that set
re-establishes the exposure bound. -/
theorem vblank_exposure_invariant_amended_witness :
    VblankInv (runOps initDevice [CtrlOp.setVblank 200]) ∧
    ((v4l2SetCtrlVblank busOk initDevice ⟨0, []⟩ 200).2.1.exposure.maximum =
       ((v4l2SetCtrlVblank busOk initDevice ⟨0, []⟩ 200).2.1.cur_mode.height : Int) +
         (v4l2SetCtrlVblank busOk initDevice ⟨0, []⟩ 200).2.1.vblank.val - 4 ∧
     (v4l2SetCtrlVblank busOk initDevice ⟨0, []⟩ 200).2.1.exposure.val ≤
       (v4l2SetCtrlVblank busOk initDevice ⟨0, []⟩ 200).2.1.exposure.maximum) :=
  ⟨vblank_exposure_invariant_amended.1 [CtrlOp.setVblank 200] (by decide),
   vblank_exposure_invariant_amended.2 initDevice 200 (by decide) (by decide)
     (by decide)⟩
